import Mathlib

/-!
Shallow embedding of the attachment conversion pipeline of
`src/file_handler.rs` (GeminiD): the function `convert_file_to_part`, its
MIME downgrade, image re-encoding, Gemini MIME allow-list validation, the
process-wide upload cache `GLOBAL_FILE_CACHE`, and the upload poll loop.

External effects (file system, network, wall clock, lock acquisition) are
modelled by an explicit `World` of oracles passed to the function.  The
function returns, besides the value the Rust code returns, the effect
counters (file reads, upload submissions, polls, sleeps) and the final
cache, so that statements about absence of I/O and about cache mutation
can be made.  Time inside the poll loop is advanced only by the 2-second
sleeps (polls are instantaneous in the model), matching a simulated clock.
-/

set_option autoImplicit false

namespace GeminiD

/-- Remote file processing state (`gemini_rust::FileState`).  `Other` stands
for any further variant, matched by the source's catch-all `_` arm of the
poll loop. -/
inductive FileState where
  | Active
  | Failed
  | Processing
  | StateUnspecified
  | Other (s : String)
  deriving DecidableEq, Repr

/-- Metadata of a remote file (`gemini_rust::File`), restricted to the fields
the pipeline reads.  `expiration_time` is a UTC timestamp modelled as `Int`
(the source's `time::OffsetDateTime`). -/
structure File where
  name : String
  expiration_time : Option Int
  state : Option FileState
  deriving DecidableEq, Repr

/-- The process-wide cache `GLOBAL_FILE_CACHE : HashMap<PathBuf, File>`,
modelled as an association list with `HashMap` semantics: `insertCache`
overwrites the entry of the key.  Paths are strings. -/
abbrev Cache := List (String × File)

/-- Map lookup (`HashMap::get`). -/
def lookupCache (c : Cache) (p : String) : Option File :=
  match c.find? (fun e => e.1 == p) with
  | some e => some e.2
  | none => none

/-- Map insert (`HashMap::insert`): unconditionally overwrites. -/
def insertCache (c : Cache) (p : String) (f : File) : Cache :=
  (p, f) :: c.filter (fun e => !(e.1 == p))

/-- Rust `str::starts_with`, on the underlying character lists: `listIsPre a b`
is true iff `a` is a prefix of `b`. -/
def listIsPre : List Char → List Char → Bool
  | [], _ => true
  | _ :: _, [] => false
  | a :: as, b :: bs => a == b && listIsPre as bs

/-- Rust `s.starts_with(p)`. -/
def strStartsWith (s p : String) : Bool :=
  listIsPre p.data s.data

/-- Top-level type of a MIME string (`mime::Mime::type_()`): the characters
before the first slash. -/
def mimeTopLevel (s : String) : String :=
  ⟨s.data.takeWhile (fun c => c != '/')⟩

/-- Lines 16-48 of `file_handler.rs`: the allow-list of Gemini-supported MIME
type strings, in source order. -/
def GEMINI_MIME : List String :=
  [ "image/png", "image/jpeg", "image/webp", "image/heic", "image/heif",
    "video/mp4", "video/mpeg", "video/quicktime", "video/avi", "video/x-flv",
    "video/mpg", "video/webm", "video/wmv", "video/3gpp",
    "audio/wav", "audio/mp3", "audio/aiff", "audio/aac", "audio/ogg",
    "audio/flac",
    "text/plain", "text/html", "text/css", "text/javascript",
    "text/typescript",
    "application/x-javascript", "application/json", "text/xml",
    "application/rtf", "text/rtf", "application/pdf" ]

/-- Line 93: the inline-size ceiling, 20 MiB. -/
def MAX_INLINE_SIZE : Nat := 20 * 1024 * 1024

/-- Alphabet of `base64::engine::general_purpose::STANDARD`. -/
def b64Alphabet : List Char :=
  "ABCDEFGHIJKLMNOPQRSTUVWXYZabcdefghijklmnopqrstuvwxyz0123456789+/".data

def b64Char (n : Nat) : Char := b64Alphabet.getD n '?'

/-- Standard base64 of a byte list, three bytes at a time with `=` padding. -/
def base64Chunks : List Nat → List Char
  | [] => []
  | [a] => [b64Char (a / 4), b64Char (a % 4 * 16), '=', '=']
  | [a, b] => [b64Char (a / 4), b64Char (a % 4 * 16 + b / 16),
               b64Char (b % 16 * 4), '=']
  | a :: b :: c :: r =>
      b64Char (a / 4) :: b64Char (a % 4 * 16 + b / 16) ::
      b64Char (b % 16 * 4 + c / 64) :: b64Char (c % 64) :: base64Chunks r

/-- Rust `base64::engine::general_purpose::STANDARD.encode`. -/
def base64Encode (b : List Nat) : String := ⟨base64Chunks b⟩

/-- Lines 132-136: force-downgrade loosely-typed `application/*` and `text/*`
MIME strings (all but `application/pdf` and `text/plain`) to `text/plain`. -/
def downgradeMime (m : String) : String :=
  if (strStartsWith m "application" && m != "application/pdf")
      || (strStartsWith m "text" && m != "text/plain") then
    "text/plain"
  else m

/-- Container formats distinguishable by the `image` crate; only PNG and JPEG
are treated specially by the source. -/
inductive ImageFormat where
  | Png
  | Jpeg
  | Bmp
  | Gif
  | WebP
  | Tiff
  | OtherFormat (s : String)
  deriving DecidableEq, Repr

/-- Conversion errors: one constructor per distinct error site of
`convert_file_to_part` (`anyhow!` messages and propagated `?` errors). -/
inductive ConvError where
  /-- An error propagated by `?` from `tokio::fs::metadata`, `tokio::fs::read`
  or `client.get_file`. -/
  | IoError (msg : String)
  /-- Line 98: "File is too large for inline transmission". -/
  | PayloadTooLarge (size : Nat)
  /-- Lines 154-156: `image::load_from_memory` or `write_to` failed. -/
  | MediaDecodeError
  /-- Lines 171-175: "Unsupported MIME type: {} ... Supported types are {}". -/
  | UnsupportedMime (mime : String) (supported : List String)
  /-- Line 190: the `?` on `create_file(..).upload()`. -/
  | UploadSubmitError (msg : String)
  /-- Line 217: "File processing failed on Google server side.". -/
  | RemoteProcessingFailed
  /-- Line 221: "Timeout waiting for file to become ACTIVE". -/
  | UploadTimeout
  /-- Line 228: "Timeout or unknown state" (catch-all arm). -/
  | TimeoutOrUnknownState
  deriving DecidableEq, Repr

/-- The `Blob` of an inline data part: declared MIME type plus base64 data. -/
structure Blob where
  mime_type : String
  data : String
  deriving DecidableEq, Repr

/-- Handle to a remote file as the caller receives it: either wrapping cached
metadata (`client.file_from_model(remote_file)`, line 117) or the handle of
the freshly submitted upload (`file_handle`, line 237), identified by its
remote name. -/
inductive FileHandle where
  | fromModel (f : File)
  | fromUpload (name : String)
  deriving DecidableEq, Repr

/-- Result type of the conversion (`enum FileResult`). -/
inductive FileResult where
  | InlinePart (b : Blob)
  | UploadedFile (h : FileHandle)
  deriving DecidableEq, Repr

/-- The oracles standing for the outside world during one call of
`convert_file_to_part` on a fixed path. -/
structure World where
  /-- Result of `tokio::fs::metadata(path)`: the file length, or an I/O error. -/
  statResult : Except String Nat
  /-- Result of `tokio::fs::read(path)`: the file bytes, or an I/O error. -/
  readResult : Except String (List Nat)
  /-- `mime_guess::from_path(path).first_or_octet_stream()`, as a string. -/
  guessedMime : String
  /-- `ImageReader::with_guessed_format().format()`: container detection on the
  bytes.  (The `?` on `with_guessed_format` cannot fire on an in-memory
  cursor, so detection itself is infallible.) -/
  detectFormat : List Nat → Option ImageFormat
  /-- `image::load_from_memory` followed by `write_to(.., Png)`: `none` models
  a decode or re-encode failure (either propagates as an error). -/
  reencodePng : List Nat → Option (List Nat)
  /-- Current UTC time (`OffsetDateTime::now_utc()`), as a timestamp. -/
  now : Int
  /-- Whether `GLOBAL_FILE_CACHE.lock()` succeeds at the lookup site
  (line 105). -/
  lockOkLookup : Bool
  /-- Whether `GLOBAL_FILE_CACHE.lock()` succeeds at the post-Active insert
  site (line 207). -/
  lockOkInsert : Bool
  /-- Result of `client.create_file(..).upload()`: the remote name of the
  pending file, or a submit error.  (The display name sent along - the file's
  base name, or the literal "uploaded_file" - influences nothing observable
  modelled here.  The `mime_str.parse()?` at line 188 is applied only to
  allow-listed strings, which all parse.) -/
  submitResult : Except String String
  /-- Result of the k-th `client.get_file(name)` call of the poll loop. -/
  poll : Nat → Except String File

/-- Expiration test of lines 108-112: expired iff an expiration time exists
and lies strictly before now. -/
def expiredAt (f : File) (now : Int) : Bool :=
  match f.expiration_time with
  | some exp => decide (exp < now)
  | none => false

/-- Lines 104-124: the cache consultation under `if upload`.  Returns the
entry only when the lock is acquired, the path is present, and the entry is
not expired; in every other case the pipeline falls through. -/
def cacheLookupStep (w : World) (c : Cache) (path : String) : Option File :=
  if w.lockOkLookup then
    match lookupCache c path with
    | some f => if expiredAt f w.now then none else some f
    | none => none
  else none

/-- Guard of lines 104-124: the cache is consulted only in upload mode;
otherwise the pipeline continues as on a cache miss. -/
def cacheProbe (w : World) (c : Cache) (path : String) (upload : Bool) :
    Option File :=
  if upload then cacheLookupStep w c path else none

/-- Lines 129-167: compute the declared MIME string (`downgradeMime`) and the
final bytes.  When the guessed type's top level is "image" and the detected
container format is some format other than PNG or JPEG, the bytes are decoded
and re-encoded as PNG and the declared type becomes `image/png`; a decode or
re-encode failure is fatal.  In every other case bytes pass through and the
declared type is the downgraded guess. -/
def normalizeMedia (w : World) (b : List Nat) :
    Except ConvError (String × List Nat) :=
  if mimeTopLevel w.guessedMime = "image" then
    match w.detectFormat b with
    | some f =>
      if ¬ (f = ImageFormat.Png ∨ f = ImageFormat.Jpeg) then
        match w.reencodePng b with
        | some buf => Except.ok ("image/png", buf)
        | none => Except.error ConvError.MediaDecodeError
      else
        Except.ok (downgradeMime w.guessedMime, b)
    | none => Except.ok (downgradeMime w.guessedMime, b)
  else
    Except.ok (downgradeMime w.guessedMime, b)

deriving instance DecidableEq for Except

/-- Outcome of the poll loop: the loop's own result (success means "became
Active"), the number of `get_file` polls issued, the number of 2-second
sleeps performed, and the cache after the loop. -/
structure PollOut where
  result : Except ConvError Unit
  polls : Nat
  sleeps : Nat
  cache : Cache
  deriving DecidableEq, Repr

/-- Error message selector: the retry arm for `Processing`, `StateUnspecified`
and `None` times out with line 221's message, the catch-all `_` arm with
line 228's. -/
def timeoutError : Option FileState → ConvError
  | some (FileState.Other _) => ConvError.TimeoutOrUnknownState
  | _ => ConvError.UploadTimeout

/-- Lines 197-233, the poll loop, fuel-indexed to make the recursion
structural.  `k` counts completed iterations, so the elapsed time at the
timeout check of iteration `k` is `2 * k` seconds (`k` sleeps of 2 seconds
have occurred; polls are instantaneous in the model).  The arms of the
source's `match` appear in source order as an if-chain: Active inserts the
freshly fetched metadata into the cache (when the lock is acquired) and
exits; Failed is terminal; otherwise the loop errors once the elapsed time
exceeds 300 seconds and else sleeps 2 seconds and retries.  The fuel-0 base
case is dead code for the fuel used by `pollLoop`: `pollLoopGo_fuel` below
shows any fuel above `151 - k` gives the same outcome. -/
def pollLoopGo (w : World) (p : String) (c : Cache) : Nat → Nat → PollOut
  | 0, _ => ⟨Except.error ConvError.UploadTimeout, 0, 0, c⟩
  | n + 1, k =>
    match w.poll k with
    | Except.error e => ⟨Except.error (ConvError.IoError e), 1, 0, c⟩
    | Except.ok f =>
      if f.state = some FileState.Active then
        ⟨Except.ok (), 1, 0,
          if w.lockOkInsert then insertCache c p f else c⟩
      else if f.state = some FileState.Failed then
        ⟨Except.error ConvError.RemoteProcessingFailed, 1, 0, c⟩
      else if 2 * k > 300 then
        ⟨Except.error (timeoutError f.state), 1, 0, c⟩
      else
        let r := pollLoopGo w p c n (k + 1)
        ⟨r.result, r.polls + 1, r.sleeps + 1, r.cache⟩

/-- The poll loop as entered at line 200: iteration 0, with enough fuel that
the structural bound is never the reason for stopping (the timeout check
fires at the latest at `k = 151`). -/
def pollLoop (w : World) (p : String) (c : Cache) : PollOut :=
  pollLoopGo w p c 152 0

/-- Observable outcome of `convert_file_to_part`: the returned value, the
effect counters (`fileReads` counts `tokio::fs::read` calls, `submits`
counts upload submissions, `polls` counts `get_file` calls, `sleeps` counts
2-second sleeps), and the final cache. -/
structure ConvOutput where
  result : Except ConvError FileResult
  fileReads : Nat
  submits : Nat
  polls : Nat
  sleeps : Nat
  cache : Cache
  deriving DecidableEq, Repr

/-- Lines 88-254: the conversion pipeline.  Stat and size-check; consult the
cache when uploading; read the bytes; normalize; validate against the
allow-list; then upload-and-poll or inline base64-encode. -/
def convert_file_to_part (w : World) (c : Cache) (path : String)
    (upload : Bool) : ConvOutput :=
  match w.statResult with
  | Except.error e => ⟨Except.error (ConvError.IoError e), 0, 0, 0, 0, c⟩
  | Except.ok len =>
    if len > MAX_INLINE_SIZE ∧ upload = false then
      ⟨Except.error (ConvError.PayloadTooLarge len), 0, 0, 0, 0, c⟩
    else
      match cacheProbe w c path upload with
      | some f =>
        ⟨Except.ok (FileResult.UploadedFile (FileHandle.fromModel f)),
          0, 0, 0, 0, c⟩
      | none =>
        match w.readResult with
        | Except.error e => ⟨Except.error (ConvError.IoError e), 1, 0, 0, 0, c⟩
        | Except.ok bytes =>
          match normalizeMedia w bytes with
          | Except.error e => ⟨Except.error e, 1, 0, 0, 0, c⟩
          | Except.ok (mimeStr, finalBytes) =>
            if mimeStr ∈ GEMINI_MIME then
              if upload then
                match w.submitResult with
                | Except.error e =>
                  ⟨Except.error (ConvError.UploadSubmitError e), 1, 1, 0, 0, c⟩
                | Except.ok name =>
                  match pollLoop w path c with
                  | ⟨Except.error e, po, sl, c2⟩ =>
                    ⟨Except.error e, 1, 1, po, sl, c2⟩
                  | ⟨Except.ok _, po, sl, c2⟩ =>
                    ⟨Except.ok (FileResult.UploadedFile
                        (FileHandle.fromUpload name)), 1, 1, po, sl, c2⟩
              else
                ⟨Except.ok (FileResult.InlinePart
                    ⟨mimeStr, base64Encode finalBytes⟩), 1, 0, 0, 0, c⟩
            else
              ⟨Except.error (ConvError.UnsupportedMime mimeStr GEMINI_MIME),
                1, 0, 0, 0, c⟩

/-- Example oracle: a path guessed as `application/zip`, 3 readable bytes,
everything else benign. -/
def wZip : World :=
  ⟨Except.ok 3, Except.ok [1, 2, 3], "application/zip", fun _ => none,
   fun _ => none, 0, true, true, Except.ok "files/z",
   fun _ => Except.ok ⟨"files/z", none, some FileState.Active⟩⟩

/-- Remote file metadata stuck in `Processing`. -/
def fProc : File := ⟨"files/q", none, some FileState.Processing⟩

/-- Example oracle whose remote file never leaves `Processing`. -/
def wProc : World :=
  ⟨Except.ok 1, Except.ok [0], "text/plain", fun _ => none, fun _ => none,
   0, true, true, Except.ok "files/q", fun _ => Except.ok fProc⟩

/-- Remote file metadata that is `Active` and never expires. -/
def fActive : File := ⟨"files/u1", none, some FileState.Active⟩

/-- Example oracle for a successful plain-text upload. -/
def wUp : World :=
  ⟨Except.ok 4, Except.ok [10, 20], "text/plain", fun _ => none,
   fun _ => none, 0, true, true, Except.ok "files/u1",
   fun _ => Except.ok fActive⟩

/-- Example oracle: a path guessed as `application/xml`. -/
def wXml : World :=
  ⟨Except.ok 2, Except.ok [60, 63], "application/xml", fun _ => none,
   fun _ => none, 0, true, true, Except.ok "files/x",
   fun _ => Except.ok fActive⟩

/-- Example oracle: a BMP image; the codec detects BMP and re-encodes the
bytes `[66, 77]` to the PNG bytes `[9, 9]`. -/
def wBmp : World :=
  ⟨Except.ok 2, Except.ok [66, 77], "image/bmp",
   fun _ => some ImageFormat.Bmp, fun _ => some [9, 9], 0, true, true,
   Except.ok "files/b", fun _ => Except.ok fActive⟩

/-- Example oracle: an SVG image; the codec cannot identify the container. -/
def wSvg : World :=
  ⟨Except.ok 1, Except.ok [4], "image/svg+xml", fun _ => none,
   fun _ => none, 0, true, true, Except.ok "files/s",
   fun _ => Except.ok fActive⟩

/-- Example oracle: a file of exactly `MAX_INLINE_SIZE` bytes. -/
def wMax : World :=
  ⟨Except.ok MAX_INLINE_SIZE, Except.ok [1], "text/plain", fun _ => none,
   fun _ => none, 0, true, true, Except.ok "files/m",
   fun _ => Except.ok fActive⟩

/-- Example oracle: a file one byte over `MAX_INLINE_SIZE`. -/
def wOver : World :=
  ⟨Except.ok (MAX_INLINE_SIZE + 1), Except.ok [1], "text/plain",
   fun _ => none, fun _ => none, 0, true, true, Except.ok "files/o",
   fun _ => Except.ok fActive⟩

/-- Example oracle: the metadata stat itself fails. -/
def wStatErr : World :=
  ⟨Except.error "stat failed", Except.ok [1], "text/plain", fun _ => none,
   fun _ => none, 0, true, true, Except.ok "files/e",
   fun _ => Except.ok fActive⟩

/-- Example oracle: guessed `audio/midi`, which no normalization step touches
and which is outside the allow-list. -/
def wMidi : World :=
  ⟨Except.ok 3, Except.ok [77, 84, 104], "audio/midi", fun _ => none,
   fun _ => none, 0, true, true, Except.ok "files/d",
   fun _ => Except.ok fActive⟩

/-- Cached entry for the expiry examples: expires at time 5. -/
def fExp : File := ⟨"files/c", some 5, some FileState.Active⟩

/-- Example oracle whose clock stands at time 10 (so `fExp` is expired). -/
def wLate : World :=
  ⟨Except.ok 4, Except.ok [10, 20], "text/plain", fun _ => none,
   fun _ => none, 10, true, true, Except.ok "files/u1",
   fun _ => Except.ok fActive⟩

/-- Example oracle whose both cache-lock acquisitions fail. -/
def wNoLock : World :=
  ⟨Except.ok 4, Except.ok [10, 20], "text/plain", fun _ => none,
   fun _ => none, 0, false, false, Except.ok "files/u1",
   fun _ => Except.ok fActive⟩

/-! ### Helper lemmas about the MIME string functions -/

theorem listIsPre_cons {a : Char} {l s : List Char}
    (h : listIsPre (a :: l) s = true) : ∃ t, s = a :: t := by
  cases s with
  | nil => simp [listIsPre] at h
  | cons b bs =>
    simp only [listIsPre, Bool.and_eq_true, beq_iff_eq] at h
    exact ⟨bs, by rw [h.1]⟩

theorem takeWhile_head {p : Char → Bool} {l : List Char} {c : Char}
    {r : List Char} (h : l.takeWhile p = c :: r) : ∃ t, l = c :: t := by
  cases l with
  | nil => simp at h
  | cons a as =>
    rw [List.takeWhile_cons] at h
    by_cases hp : p a = true
    · rw [if_pos hp] at h
      injection h with h1 _
      exact ⟨as, by rw [h1]⟩
    · rw [if_neg hp] at h
      simp at h

theorem image_head {s : String} (h : mimeTopLevel s = "image") :
    ∃ t, s.data = 'i' :: t := by
  have hd : s.data.takeWhile (fun c => c != '/') = 'i' :: "mage".data :=
    congrArg String.data h
  exact takeWhile_head hd

theorem not_app_of_image {s : String} (h : mimeTopLevel s = "image") :
    strStartsWith s "application" = false := by
  obtain ⟨t, ht⟩ := image_head h
  cases hb : strStartsWith s "application" with
  | false => rfl
  | true =>
    obtain ⟨u, hu⟩ := listIsPre_cons
      (show listIsPre ('a' :: "pplication".data) s.data = true from hb)
    rw [ht] at hu
    injection hu with h1 _
    exact absurd h1 (by decide)

theorem not_text_of_image {s : String} (h : mimeTopLevel s = "image") :
    strStartsWith s "text" = false := by
  obtain ⟨t, ht⟩ := image_head h
  cases hb : strStartsWith s "text" with
  | false => rfl
  | true =>
    obtain ⟨u, hu⟩ := listIsPre_cons
      (show listIsPre ('t' :: "ext".data) s.data = true from hb)
    rw [ht] at hu
    injection hu with h1 _
    exact absurd h1 (by decide)

theorem ne_image_of_app {s : String}
    (h : strStartsWith s "application" = true) :
    ¬ mimeTopLevel s = "image" := by
  intro hi
  have hf := not_app_of_image hi
  rw [h] at hf
  cases hf

theorem ne_image_of_text {s : String} (h : strStartsWith s "text" = true) :
    ¬ mimeTopLevel s = "image" := by
  intro hi
  have hf := not_text_of_image hi
  rw [h] at hf
  cases hf

theorem downgrade_id_of_image {s : String} (h : mimeTopLevel s = "image") :
    downgradeMime s = s := by
  unfold downgradeMime
  rw [not_app_of_image h, not_text_of_image h]
  simp

theorem downgrade_eq_plain {s : String}
    (h : (strStartsWith s "application" = true ∧ s ≠ "application/pdf")
       ∨ (strStartsWith s "text" = true ∧ s ≠ "text/plain")) :
    downgradeMime s = "text/plain" := by
  unfold downgradeMime
  rcases h with ⟨h1, h2⟩ | ⟨h1, h2⟩
  · rw [h1, bne_iff_ne.mpr h2]
    simp
  · rw [h1, bne_iff_ne.mpr h2]
    simp

theorem normalizeMedia_no_payload (w : World) (b : List Nat) (n : Nat) :
    normalizeMedia w b ≠ Except.error (ConvError.PayloadTooLarge n) := by
  unfold normalizeMedia
  split
  · split
    · split
      · split <;> simp
      · simp
    · simp
  · simp

/-! ### Helper lemmas about the poll loop -/

theorem timeoutError_ne_payload (st : Option FileState) (m : Nat) :
    timeoutError st ≠ ConvError.PayloadTooLarge m := by
  unfold timeoutError
  split <;> simp

/-- Fuel irrelevance: any fuel strictly above `151 - k` produces the same
outcome, so the structural base case of `pollLoopGo` is dead code for the
fuel `pollLoop` supplies. -/
theorem pollLoopGo_fuel (w : World) (p : String) (c : Cache) :
    ∀ n m k, 151 - k < n → 151 - k < m →
      pollLoopGo w p c n k = pollLoopGo w p c m k := by
  intro n
  induction n with
  | zero => intro m k h1 _; omega
  | succ n ih =>
    intro m k h1 h2
    cases m with
    | zero => omega
    | succ m =>
      unfold pollLoopGo
      cases hp : w.poll k with
      | error e => rfl
      | ok f =>
        dsimp only
        by_cases ha : f.state = some FileState.Active
        · rw [if_pos ha, if_pos ha]
        · rw [if_neg ha, if_neg ha]
          by_cases hb : f.state = some FileState.Failed
          · rw [if_pos hb, if_pos hb]
          · rw [if_neg hb, if_neg hb]
            by_cases ht : 2 * k > 300
            · rw [if_pos ht, if_pos ht]
            · rw [if_neg ht, if_neg ht]
              have hrec : pollLoopGo w p c n (k + 1)
                  = pollLoopGo w p c m (k + 1) :=
                ih m (k + 1) (by omega) (by omega)
              simp only [hrec]

/-- The loop always terminates, issuing at most `fuel` polls. -/
theorem pollLoopGo_polls_le (w : World) (p : String) (c : Cache) :
    ∀ n k, (pollLoopGo w p c n k).polls ≤ n := by
  intro n
  induction n with
  | zero => intro k; simp [pollLoopGo]
  | succ n ih =>
    intro k
    unfold pollLoopGo
    cases hp : w.poll k with
    | error e => simp
    | ok f =>
      dsimp only
      by_cases ha : f.state = some FileState.Active
      · rw [if_pos ha]; simp
      · rw [if_neg ha]
        by_cases hb : f.state = some FileState.Failed
        · rw [if_pos hb]; simp
        · rw [if_neg hb]
          by_cases ht : 2 * k > 300
          · rw [if_pos ht]; simp
          · rw [if_neg ht]
            have := ih (k + 1)
            simp only []
            omega

/-- The loop writes to the cache only after observing `Active`: the final
cache is either untouched or exactly one insert of polled metadata whose
state is `Active`, and in the latter case the loop succeeded. -/
theorem pollLoopGo_cache (w : World) (p : String) (c : Cache) :
    ∀ n k, (pollLoopGo w p c n k).cache = c
      ∨ (w.lockOkInsert = true ∧ ∃ j : Nat, ∃ f : File,
          w.poll j = Except.ok f ∧ f.state = some FileState.Active
          ∧ (pollLoopGo w p c n k).cache = insertCache c p f
          ∧ (pollLoopGo w p c n k).result = Except.ok ()) := by
  intro n
  induction n with
  | zero => intro k; left; simp [pollLoopGo]
  | succ n ih =>
    intro k
    unfold pollLoopGo
    cases hp : w.poll k with
    | error e => left; rfl
    | ok f =>
      dsimp only
      by_cases ha : f.state = some FileState.Active
      · rw [if_pos ha]
        cases hl : w.lockOkInsert with
        | false => left; simp
        | true =>
          right
          exact ⟨rfl, k, f, hp, ha, by simp, rfl⟩
      · rw [if_neg ha]
        by_cases hb : f.state = some FileState.Failed
        · rw [if_pos hb]; left; rfl
        · rw [if_neg hb]
          by_cases ht : 2 * k > 300
          · rw [if_pos ht]; left; rfl
          · rw [if_neg ht]
            rcases ih (k + 1) with hc | ⟨hl, j, f2, hpj, hs, hc, hr⟩
            · left; simpa using hc
            · right
              exact ⟨hl, j, f2, hpj, hs, by simpa using hc, by simpa using hr⟩

/-- When the insert-site lock fails, the loop never changes the cache. -/
theorem pollLoopGo_cache_of_noInsert (w : World) (p : String) (c : Cache)
    (h : w.lockOkInsert = false) :
    ∀ n k, (pollLoopGo w p c n k).cache = c := by
  intro n
  induction n with
  | zero => intro k; simp [pollLoopGo]
  | succ n ih =>
    intro k
    unfold pollLoopGo
    cases hp : w.poll k with
    | error e => rfl
    | ok f =>
      dsimp only
      by_cases ha : f.state = some FileState.Active
      · rw [if_pos ha, h]; simp
      · rw [if_neg ha]
        by_cases hb : f.state = some FileState.Failed
        · rw [if_pos hb]
        · rw [if_neg hb]
          by_cases ht : 2 * k > 300
          · rw [if_pos ht]
          · rw [if_neg ht]
            simpa using ih (k + 1)

/-- Polling observations: the loop's result, poll count and sleep count
depend only on the poll oracle - not on the starting cache and not on the
insert-site lock flag. -/
theorem pollLoopGo_obs_eq (v w : World) (p : String) (c d : Cache)
    (hq : v.poll = w.poll) :
    ∀ n k,
      (pollLoopGo v p c n k).result = (pollLoopGo w p d n k).result
      ∧ (pollLoopGo v p c n k).polls = (pollLoopGo w p d n k).polls
      ∧ (pollLoopGo v p c n k).sleeps = (pollLoopGo w p d n k).sleeps := by
  intro n
  induction n with
  | zero => intro k; simp [pollLoopGo]
  | succ n ih =>
    intro k
    unfold pollLoopGo
    rw [hq]
    cases hp : w.poll k with
    | error e => exact ⟨rfl, rfl, rfl⟩
    | ok f =>
      dsimp only
      by_cases ha : f.state = some FileState.Active
      · rw [if_pos ha, if_pos ha]
        exact ⟨rfl, rfl, rfl⟩
      · rw [if_neg ha, if_neg ha]
        by_cases hb : f.state = some FileState.Failed
        · rw [if_pos hb, if_pos hb]
          exact ⟨rfl, rfl, rfl⟩
        · rw [if_neg hb, if_neg hb]
          by_cases ht : 2 * k > 300
          · rw [if_pos ht, if_pos ht]
            exact ⟨rfl, rfl, rfl⟩
          · rw [if_neg ht, if_neg ht]
            have hr := ih (k + 1)
            simp only []
            exact ⟨hr.1, by rw [hr.2.1], by rw [hr.2.2]⟩

/-- The loop never produces a `PayloadTooLarge` error. -/
theorem pollLoopGo_no_payload (w : World) (p : String) (c : Cache) :
    ∀ n k m, (pollLoopGo w p c n k).result
      ≠ Except.error (ConvError.PayloadTooLarge m) := by
  intro n
  induction n with
  | zero => intro k m; simp [pollLoopGo]
  | succ n ih =>
    intro k m
    unfold pollLoopGo
    cases hp : w.poll k with
    | error e => simp
    | ok f =>
      dsimp only
      by_cases ha : f.state = some FileState.Active
      · rw [if_pos ha]; simp
      · rw [if_neg ha]
        by_cases hb : f.state = some FileState.Failed
        · rw [if_pos hb]; simp
        · rw [if_neg hb]
          by_cases ht : 2 * k > 300
          · rw [if_pos ht]
            simpa using timeoutError_ne_payload f.state m
          · rw [if_neg ht]
            simpa using ih (k + 1) m

/-- A run over metadata that is forever `Processing`: from iteration `k`
(with enough fuel and `k ≤ 151`), the loop times out having issued
`152 - k` further polls and `151 - k` further sleeps, leaving the cache
untouched. -/
theorem pollLoopGo_processing (w : World) (p : String) (c : Cache)
    (h : ∀ j, ∃ f, w.poll j = Except.ok f
        ∧ f.state = some FileState.Processing) :
    ∀ n k, 151 - k < n → 2 * k ≤ 302 →
      pollLoopGo w p c n k
        = ⟨Except.error ConvError.UploadTimeout, 152 - k, 151 - k, c⟩ := by
  intro n
  induction n with
  | zero => intro k h1 _; omega
  | succ n ih =>
    intro k h1 h2
    obtain ⟨f, hp, hs⟩ := h k
    unfold pollLoopGo
    rw [hp]
    dsimp only
    rw [if_neg (by rw [hs]; decide), if_neg (by rw [hs]; decide)]
    by_cases ht : 2 * k > 300
    · rw [if_pos ht]
      have hk : k = 151 := by omega
      subst hk
      rw [hs]
      rfl
    · rw [if_neg ht]
      have hrec := ih (k + 1) (by omega) (by omega)
      simp only [hrec, PollOut.mk.injEq]
      refine ⟨trivial, by omega, by omega, trivial⟩

/-! ### Helper lemmas about the cache consultation -/

theorem cacheProbe_false (w : World) (c : Cache) (p : String) :
    cacheProbe w c p false = none := rfl

theorem cacheProbe_true (w : World) (c : Cache) (p : String) :
    cacheProbe w c p true = cacheLookupStep w c p := rfl

theorem cacheLookupStep_noLock (w : World) (c : Cache) (p : String)
    (h : w.lockOkLookup = false) : cacheLookupStep w c p = none := by
  unfold cacheLookupStep
  rw [h]
  simp

theorem cacheLookupStep_nil (w : World) (p : String) :
    cacheLookupStep w [] p = none := by
  unfold cacheLookupStep
  cases hk : w.lockOkLookup <;> simp [lookupCache]

/-! ### Branch characterization of `convert_file_to_part` -/

theorem convert_eq_statErr (w : World) (c : Cache) (p : String) (u : Bool)
    (e : String) (h : w.statResult = Except.error e) :
    convert_file_to_part w c p u
      = ⟨Except.error (ConvError.IoError e), 0, 0, 0, 0, c⟩ := by
  unfold convert_file_to_part
  rw [h]

theorem convert_eq_tooLarge (w : World) (c : Cache) (p : String) (u : Bool)
    (n : Nat) (h1 : w.statResult = Except.ok n)
    (h2 : n > MAX_INLINE_SIZE ∧ u = false) :
    convert_file_to_part w c p u
      = ⟨Except.error (ConvError.PayloadTooLarge n), 0, 0, 0, 0, c⟩ := by
  unfold convert_file_to_part
  rw [h1]
  dsimp only
  rw [if_pos h2]

theorem convert_eq_cacheHit (w : World) (c : Cache) (p : String) (u : Bool)
    (n : Nat) (f : File) (h1 : w.statResult = Except.ok n)
    (h2 : ¬ (n > MAX_INLINE_SIZE ∧ u = false))
    (h3 : cacheProbe w c p u = some f) :
    convert_file_to_part w c p u
      = ⟨Except.ok (FileResult.UploadedFile (FileHandle.fromModel f)),
         0, 0, 0, 0, c⟩ := by
  unfold convert_file_to_part
  rw [h1]
  dsimp only
  rw [if_neg h2, h3]

theorem convert_eq_readErr (w : World) (c : Cache) (p : String) (u : Bool)
    (n : Nat) (e : String) (h1 : w.statResult = Except.ok n)
    (h2 : ¬ (n > MAX_INLINE_SIZE ∧ u = false))
    (h3 : cacheProbe w c p u = none) (h4 : w.readResult = Except.error e) :
    convert_file_to_part w c p u
      = ⟨Except.error (ConvError.IoError e), 1, 0, 0, 0, c⟩ := by
  unfold convert_file_to_part
  rw [h1]
  dsimp only
  rw [if_neg h2, h3]
  dsimp only
  rw [h4]

theorem convert_eq_normErr (w : World) (c : Cache) (p : String) (u : Bool)
    (n : Nat) (b : List Nat) (e : ConvError)
    (h1 : w.statResult = Except.ok n)
    (h2 : ¬ (n > MAX_INLINE_SIZE ∧ u = false))
    (h3 : cacheProbe w c p u = none) (h4 : w.readResult = Except.ok b)
    (h5 : normalizeMedia w b = Except.error e) :
    convert_file_to_part w c p u = ⟨Except.error e, 1, 0, 0, 0, c⟩ := by
  unfold convert_file_to_part
  rw [h1]
  dsimp only
  rw [if_neg h2, h3]
  dsimp only
  rw [h4]
  dsimp only
  rw [h5]

theorem convert_eq_unsupported (w : World) (c : Cache) (p : String) (u : Bool)
    (n : Nat) (b fb : List Nat) (m : String)
    (h1 : w.statResult = Except.ok n)
    (h2 : ¬ (n > MAX_INLINE_SIZE ∧ u = false))
    (h3 : cacheProbe w c p u = none) (h4 : w.readResult = Except.ok b)
    (h5 : normalizeMedia w b = Except.ok (m, fb)) (h6 : m ∉ GEMINI_MIME) :
    convert_file_to_part w c p u
      = ⟨Except.error (ConvError.UnsupportedMime m GEMINI_MIME),
         1, 0, 0, 0, c⟩ := by
  unfold convert_file_to_part
  rw [h1]
  dsimp only
  rw [if_neg h2, h3]
  dsimp only
  rw [h4]
  dsimp only
  rw [h5]
  dsimp only
  rw [if_neg h6]

theorem convert_eq_inline (w : World) (c : Cache) (p : String)
    (n : Nat) (b fb : List Nat) (m : String)
    (h1 : w.statResult = Except.ok n) (h2 : ¬ n > MAX_INLINE_SIZE)
    (h4 : w.readResult = Except.ok b)
    (h5 : normalizeMedia w b = Except.ok (m, fb)) (h6 : m ∈ GEMINI_MIME) :
    convert_file_to_part w c p false
      = ⟨Except.ok (FileResult.InlinePart ⟨m, base64Encode fb⟩),
         1, 0, 0, 0, c⟩ := by
  unfold convert_file_to_part
  rw [h1]
  dsimp only
  rw [if_neg (by intro hx; exact h2 hx.1), cacheProbe_false]
  dsimp only
  rw [h4]
  dsimp only
  rw [h5]
  dsimp only
  rw [if_pos h6, if_neg Bool.false_ne_true]

theorem convert_eq_submitErr (w : World) (c : Cache) (p : String)
    (n : Nat) (b fb : List Nat) (m : String) (e : String)
    (h1 : w.statResult = Except.ok n)
    (h3 : cacheProbe w c p true = none) (h4 : w.readResult = Except.ok b)
    (h5 : normalizeMedia w b = Except.ok (m, fb)) (h6 : m ∈ GEMINI_MIME)
    (h7 : w.submitResult = Except.error e) :
    convert_file_to_part w c p true
      = ⟨Except.error (ConvError.UploadSubmitError e), 1, 1, 0, 0, c⟩ := by
  unfold convert_file_to_part
  rw [h1]
  dsimp only
  rw [if_neg (by intro hx; cases hx.2), h3]
  dsimp only
  rw [h4]
  dsimp only
  rw [h5]
  dsimp only
  rw [if_pos h6, if_pos rfl]
  rw [h7]

theorem convert_eq_pollErr (w : World) (c : Cache) (p : String)
    (n : Nat) (b fb : List Nat) (m : String) (name : String)
    (e : ConvError) (po sl : Nat) (d : Cache)
    (h1 : w.statResult = Except.ok n)
    (h3 : cacheProbe w c p true = none) (h4 : w.readResult = Except.ok b)
    (h5 : normalizeMedia w b = Except.ok (m, fb)) (h6 : m ∈ GEMINI_MIME)
    (h7 : w.submitResult = Except.ok name)
    (h8 : pollLoop w p c = ⟨Except.error e, po, sl, d⟩) :
    convert_file_to_part w c p true = ⟨Except.error e, 1, 1, po, sl, d⟩ := by
  unfold convert_file_to_part
  rw [h1]
  dsimp only
  rw [if_neg (by intro hx; cases hx.2), h3]
  dsimp only
  rw [h4]
  dsimp only
  rw [h5]
  dsimp only
  rw [if_pos h6, if_pos rfl]
  rw [h7]
  dsimp only
  rw [h8]

theorem convert_eq_pollOk (w : World) (c : Cache) (p : String)
    (n : Nat) (b fb : List Nat) (m : String) (name : String)
    (po sl : Nat) (d : Cache)
    (h1 : w.statResult = Except.ok n)
    (h3 : cacheProbe w c p true = none) (h4 : w.readResult = Except.ok b)
    (h5 : normalizeMedia w b = Except.ok (m, fb)) (h6 : m ∈ GEMINI_MIME)
    (h7 : w.submitResult = Except.ok name)
    (h8 : pollLoop w p c = ⟨Except.ok (), po, sl, d⟩) :
    convert_file_to_part w c p true
      = ⟨Except.ok (FileResult.UploadedFile (FileHandle.fromUpload name)),
         1, 1, po, sl, d⟩ := by
  unfold convert_file_to_part
  rw [h1]
  dsimp only
  rw [if_neg (by intro hx; cases hx.2), h3]
  dsimp only
  rw [h4]
  dsimp only
  rw [h5]
  dsimp only
  rw [if_pos h6, if_pos rfl]
  rw [h7]
  dsimp only
  rw [h8]

/-- Exhaustive branch analysis of a call of `convert_file_to_part`. -/
theorem convert_shape (w : World) (c : Cache) (p : String) (u : Bool) :
    (∃ e, w.statResult = Except.error e
      ∧ convert_file_to_part w c p u
          = ⟨Except.error (ConvError.IoError e), 0, 0, 0, 0, c⟩)
  ∨ (∃ n, w.statResult = Except.ok n ∧ n > MAX_INLINE_SIZE ∧ u = false
      ∧ convert_file_to_part w c p u
          = ⟨Except.error (ConvError.PayloadTooLarge n), 0, 0, 0, 0, c⟩)
  ∨ (∃ n, ∃ f, w.statResult = Except.ok n ∧ cacheProbe w c p u = some f
      ∧ convert_file_to_part w c p u
          = ⟨Except.ok (FileResult.UploadedFile (FileHandle.fromModel f)),
             0, 0, 0, 0, c⟩)
  ∨ (∃ n, ∃ e, w.statResult = Except.ok n ∧ cacheProbe w c p u = none
      ∧ w.readResult = Except.error e
      ∧ convert_file_to_part w c p u
          = ⟨Except.error (ConvError.IoError e), 1, 0, 0, 0, c⟩)
  ∨ (∃ n, ∃ b, ∃ e, w.statResult = Except.ok n ∧ cacheProbe w c p u = none
      ∧ w.readResult = Except.ok b ∧ normalizeMedia w b = Except.error e
      ∧ convert_file_to_part w c p u = ⟨Except.error e, 1, 0, 0, 0, c⟩)
  ∨ (∃ n, ∃ b, ∃ m, ∃ fb, w.statResult = Except.ok n
      ∧ cacheProbe w c p u = none
      ∧ w.readResult = Except.ok b ∧ normalizeMedia w b = Except.ok (m, fb)
      ∧ m ∉ GEMINI_MIME
      ∧ convert_file_to_part w c p u
          = ⟨Except.error (ConvError.UnsupportedMime m GEMINI_MIME),
             1, 0, 0, 0, c⟩)
  ∨ (u = false ∧ ∃ n, ∃ b, ∃ m, ∃ fb, w.statResult = Except.ok n
      ∧ w.readResult = Except.ok b ∧ normalizeMedia w b = Except.ok (m, fb)
      ∧ m ∈ GEMINI_MIME
      ∧ convert_file_to_part w c p u
          = ⟨Except.ok (FileResult.InlinePart ⟨m, base64Encode fb⟩),
             1, 0, 0, 0, c⟩)
  ∨ (u = true ∧ ∃ n, ∃ b, ∃ m, ∃ fb, ∃ e, w.statResult = Except.ok n
      ∧ cacheProbe w c p u = none
      ∧ w.readResult = Except.ok b ∧ normalizeMedia w b = Except.ok (m, fb)
      ∧ m ∈ GEMINI_MIME ∧ w.submitResult = Except.error e
      ∧ convert_file_to_part w c p u
          = ⟨Except.error (ConvError.UploadSubmitError e), 1, 1, 0, 0, c⟩)
  ∨ (u = true ∧ ∃ n, ∃ b, ∃ m, ∃ fb, ∃ name, ∃ e, ∃ po, ∃ sl, ∃ d,
        w.statResult = Except.ok n ∧ cacheProbe w c p u = none
      ∧ w.readResult = Except.ok b ∧ normalizeMedia w b = Except.ok (m, fb)
      ∧ m ∈ GEMINI_MIME ∧ w.submitResult = Except.ok name
      ∧ pollLoop w p c = ⟨Except.error e, po, sl, d⟩
      ∧ convert_file_to_part w c p u = ⟨Except.error e, 1, 1, po, sl, d⟩)
  ∨ (u = true ∧ ∃ n, ∃ b, ∃ m, ∃ fb, ∃ name, ∃ po, ∃ sl, ∃ d,
        w.statResult = Except.ok n ∧ cacheProbe w c p u = none
      ∧ w.readResult = Except.ok b ∧ normalizeMedia w b = Except.ok (m, fb)
      ∧ m ∈ GEMINI_MIME ∧ w.submitResult = Except.ok name
      ∧ pollLoop w p c = ⟨Except.ok (), po, sl, d⟩
      ∧ convert_file_to_part w c p u
          = ⟨Except.ok (FileResult.UploadedFile (FileHandle.fromUpload name)),
             1, 1, po, sl, d⟩) := by
  cases hst : w.statResult with
  | error e => exact Or.inl ⟨e, rfl, convert_eq_statErr w c p u e hst⟩
  | ok n =>
    by_cases hsz : n > MAX_INLINE_SIZE ∧ u = false
    · exact Or.inr (Or.inl
        ⟨n, rfl, hsz.1, hsz.2, convert_eq_tooLarge w c p u n hst hsz⟩)
    · cases hcp : cacheProbe w c p u with
      | some f =>
        exact Or.inr (Or.inr (Or.inl
          ⟨n, f, rfl, rfl, convert_eq_cacheHit w c p u n f hst hsz hcp⟩))
      | none =>
        cases hrr : w.readResult with
        | error e =>
          exact Or.inr (Or.inr (Or.inr (Or.inl
            ⟨n, e, rfl, rfl, rfl,
             convert_eq_readErr w c p u n e hst hsz hcp hrr⟩)))
        | ok b =>
          cases hn : normalizeMedia w b with
          | error e =>
            exact Or.inr (Or.inr (Or.inr (Or.inr (Or.inl
              ⟨n, b, e, rfl, rfl, rfl, hn,
               convert_eq_normErr w c p u n b e hst hsz hcp hrr hn⟩))))
          | ok pr =>
            obtain ⟨m, fb⟩ := pr
            by_cases hm : m ∈ GEMINI_MIME
            · cases u with
              | false =>
                have h2 : ¬ n > MAX_INLINE_SIZE := fun hgt => hsz ⟨hgt, rfl⟩
                exact Or.inr (Or.inr (Or.inr (Or.inr (Or.inr (Or.inr (Or.inl
                  ⟨rfl, n, b, m, fb, rfl, rfl, hn, hm,
                   convert_eq_inline w c p n b fb m hst h2 hrr hn hm⟩))))))
              | true =>
                cases hsb : w.submitResult with
                | error e =>
                  exact Or.inr (Or.inr (Or.inr (Or.inr (Or.inr (Or.inr
                    (Or.inr (Or.inl
                    ⟨rfl, n, b, m, fb, e, rfl, rfl, rfl, hn, hm, rfl,
                     convert_eq_submitErr w c p n b fb m e hst hcp hrr hn hm
                       hsb⟩)))))))
                | ok name =>
                  cases hpl : pollLoop w p c with
                  | mk res po sl d =>
                    cases res with
                    | error e =>
                      exact Or.inr (Or.inr (Or.inr (Or.inr (Or.inr (Or.inr
                        (Or.inr (Or.inr (Or.inl
                        ⟨rfl, n, b, m, fb, name, e, po, sl, d, rfl, rfl, rfl,
                         hn, hm, rfl, rfl,
                         convert_eq_pollErr w c p n b fb m name e po sl d hst
                           hcp hrr hn hm hsb hpl⟩))))))))
                    | ok uu =>
                      cases uu
                      exact Or.inr (Or.inr (Or.inr (Or.inr (Or.inr (Or.inr
                        (Or.inr (Or.inr (Or.inr
                        ⟨rfl, n, b, m, fb, name, po, sl, d, rfl, rfl, rfl, hn,
                         hm, rfl, rfl,
                         convert_eq_pollOk w c p n b fb m name po sl d hst hcp
                           hrr hn hm hsb hpl⟩))))))))
            · exact Or.inr (Or.inr (Or.inr (Or.inr (Or.inr (Or.inl
                ⟨n, b, m, fb, rfl, rfl, rfl, hn, hm,
                 convert_eq_unsupported w c p u n b fb m hst hsz hcp hrr hn
                   hm⟩)))))

/-- Observable effects of the conversion: two calls whose worlds agree on
every oracle that feeds the result (everything except the insert-site lock
flag) and whose cache probes agree produce the same result and the same
effect counters, whatever their starting caches. -/
theorem convert_obs_eq (v w : World) (c d : Cache) (p : String) (u : Bool)
    (hs : v.statResult = w.statResult)
    (hr : v.readResult = w.readResult)
    (hg : v.guessedMime = w.guessedMime)
    (hdf : v.detectFormat = w.detectFormat)
    (hre : v.reencodePng = w.reencodePng)
    (hsub : v.submitResult = w.submitResult)
    (hq : v.poll = w.poll)
    (hc : cacheProbe v c p u = cacheProbe w d p u) :
    (convert_file_to_part v c p u).result
        = (convert_file_to_part w d p u).result
  ∧ (convert_file_to_part v c p u).fileReads
        = (convert_file_to_part w d p u).fileReads
  ∧ (convert_file_to_part v c p u).submits
        = (convert_file_to_part w d p u).submits
  ∧ (convert_file_to_part v c p u).polls
        = (convert_file_to_part w d p u).polls
  ∧ (convert_file_to_part v c p u).sleeps
        = (convert_file_to_part w d p u).sleeps := by
  have hnm : ∀ b, normalizeMedia v b = normalizeMedia w b := by
    intro b
    unfold normalizeMedia
    rw [hg, hdf, hre]
  cases hst : w.statResult with
  | error e =>
    rw [convert_eq_statErr v c p u e (hs.trans hst),
        convert_eq_statErr w d p u e hst]
    exact ⟨rfl, rfl, rfl, rfl, rfl⟩
  | ok n =>
    by_cases hsz : n > MAX_INLINE_SIZE ∧ u = false
    · rw [convert_eq_tooLarge v c p u n (hs.trans hst) hsz,
          convert_eq_tooLarge w d p u n hst hsz]
      exact ⟨rfl, rfl, rfl, rfl, rfl⟩
    · cases hcp : cacheProbe w d p u with
      | some f =>
        rw [convert_eq_cacheHit v c p u n f (hs.trans hst) hsz (hc.trans hcp),
            convert_eq_cacheHit w d p u n f hst hsz hcp]
        exact ⟨rfl, rfl, rfl, rfl, rfl⟩
      | none =>
        cases hrr : w.readResult with
        | error e =>
          rw [convert_eq_readErr v c p u n e (hs.trans hst) hsz
                (hc.trans hcp) (hr.trans hrr),
              convert_eq_readErr w d p u n e hst hsz hcp hrr]
          exact ⟨rfl, rfl, rfl, rfl, rfl⟩
        | ok b =>
          cases hn : normalizeMedia w b with
          | error e =>
            rw [convert_eq_normErr v c p u n b e (hs.trans hst) hsz
                  (hc.trans hcp) (hr.trans hrr) ((hnm b).trans hn),
                convert_eq_normErr w d p u n b e hst hsz hcp hrr hn]
            exact ⟨rfl, rfl, rfl, rfl, rfl⟩
          | ok pr =>
            obtain ⟨m, fb⟩ := pr
            by_cases hm : m ∈ GEMINI_MIME
            · cases u with
              | false =>
                have h2 : ¬ n > MAX_INLINE_SIZE := fun hgt => hsz ⟨hgt, rfl⟩
                rw [convert_eq_inline v c p n b fb m (hs.trans hst) h2
                      (hr.trans hrr) ((hnm b).trans hn) hm,
                    convert_eq_inline w d p n b fb m hst h2 hrr hn hm]
                exact ⟨rfl, rfl, rfl, rfl, rfl⟩
              | true =>
                cases hsb : w.submitResult with
                | error e =>
                  rw [convert_eq_submitErr v c p n b fb m e (hs.trans hst)
                        (hc.trans hcp) (hr.trans hrr) ((hnm b).trans hn) hm
                        (hsub.trans hsb),
                      convert_eq_submitErr w d p n b fb m e hst hcp hrr hn hm
                        hsb]
                  exact ⟨rfl, rfl, rfl, rfl, rfl⟩
                | ok name =>
                  have hobs := pollLoopGo_obs_eq v w p c d hq 152 0
                  cases hpl1 : pollLoop v p c with
                  | mk res1 po1 sl1 d1 =>
                    cases hpl2 : pollLoop w p d with
                    | mk res2 po2 sl2 d2 =>
                      have hploop1 : pollLoopGo v p c 152 0
                          = ⟨res1, po1, sl1, d1⟩ := hpl1
                      have hploop2 : pollLoopGo w p d 152 0
                          = ⟨res2, po2, sl2, d2⟩ := hpl2
                      rw [hploop1, hploop2] at hobs
                      obtain ⟨h1, h2, h3⟩ := hobs
                      dsimp only at h1 h2 h3
                      rw [← h1, ← h2, ← h3] at hpl2
                      cases res1 with
                      | error e =>
                        rw [convert_eq_pollErr v c p n b fb m name e po1 sl1
                              d1 (hs.trans hst) (hc.trans hcp) (hr.trans hrr)
                              ((hnm b).trans hn) hm (hsub.trans hsb) hpl1,
                            convert_eq_pollErr w d p n b fb m name e po1 sl1
                              d2 hst hcp hrr hn hm hsb hpl2]
                        exact ⟨rfl, rfl, rfl, rfl, rfl⟩
                      | ok uu =>
                        cases uu
                        rw [convert_eq_pollOk v c p n b fb m name po1 sl1 d1
                              (hs.trans hst) (hc.trans hcp) (hr.trans hrr)
                              ((hnm b).trans hn) hm (hsub.trans hsb) hpl1,
                            convert_eq_pollOk w d p n b fb m name po1 sl1 d2
                              hst hcp hrr hn hm hsb hpl2]
                        exact ⟨rfl, rfl, rfl, rfl, rfl⟩
            · rw [convert_eq_unsupported v c p u n b fb m (hs.trans hst) hsz
                    (hc.trans hcp) (hr.trans hrr) ((hnm b).trans hn) hm,
                  convert_eq_unsupported w d p u n b fb m hst hsz hcp hrr hn
                    hm]
              exact ⟨rfl, rfl, rfl, rfl, rfl⟩

/-- No branch of the conversion other than the size check can produce a
`PayloadTooLarge` error. -/
theorem convert_no_payload (w : World) (c : Cache) (p : String) (u : Bool)
    (hno : ∀ n, w.statResult = Except.ok n
        → ¬ (n > MAX_INLINE_SIZE ∧ u = false)) :
    ∀ m, (convert_file_to_part w c p u).result
      ≠ Except.error (ConvError.PayloadTooLarge m) := by
  intro m hres
  rcases convert_shape w c p u with
      ⟨e, hst, heq⟩ | ⟨n, hst, hgt, hu, heq⟩ | ⟨n, f, hst, hcp, heq⟩ |
      ⟨n, e, hst, hcp, hrr, heq⟩ | ⟨n, b, e, hst, hcp, hrr, hn, heq⟩ |
      ⟨n, b, m2, fb, hst, hcp, hrr, hn, hm, heq⟩ |
      ⟨hu, n, b, m2, fb, hst, hrr, hn, hm, heq⟩ |
      ⟨hu, n, b, m2, fb, e, hst, hcp, hrr, hn, hm, hsb, heq⟩ |
      ⟨hu, n, b, m2, fb, name, e, po, sl, d, hst, hcp, hrr, hn, hm, hsb,
        hpl, heq⟩ |
      ⟨hu, n, b, m2, fb, name, po, sl, d, hst, hcp, hrr, hn, hm, hsb, hpl,
        heq⟩
  · rw [heq] at hres; simp at hres
  · exact hno n hst ⟨hgt, hu⟩
  · rw [heq] at hres; simp at hres
  · rw [heq] at hres; simp at hres
  · rw [heq] at hres
    simp at hres
    rw [hres] at hn
    exact normalizeMedia_no_payload w b m hn
  · rw [heq] at hres; simp at hres
  · rw [heq] at hres; simp at hres
  · rw [heq] at hres; simp at hres
  · rw [heq] at hres
    simp at hres
    rw [hres] at hpl
    have hnp := pollLoopGo_no_payload w p c 152 0 m
    have hpl' : pollLoopGo w p c 152 0
        = ⟨Except.error (ConvError.PayloadTooLarge m), po, sl, d⟩ := hpl
    rw [hpl'] at hnp
    simp at hnp
  · rw [heq] at hres; simp at hres

/-! ### The claims -/

/-- C1 (amended): any input whose declared MIME string after normalization
lies outside the allow-list fails with `UnsupportedMime`, naming the
rejected type and the allow-list, with no file-cache hit, no upload
submission and no poll.  A guessed `application/zip`, however, never
reaches this failure: the downgrade of lines 132-136 relabels it
`text/plain`, which passes validation. -/
theorem c1_unsupported_type_no_network (w : World) (c : Cache) (p : String)
    (u : Bool) (n : Nat) (b fb : List Nat) (m : String)
    (h1 : w.statResult = Except.ok n)
    (h2 : ¬ (n > MAX_INLINE_SIZE ∧ u = false))
    (h3 : cacheProbe w c p u = none)
    (h4 : w.readResult = Except.ok b)
    (h5 : normalizeMedia w b = Except.ok (m, fb))
    (h6 : m ∉ GEMINI_MIME) :
    convert_file_to_part w c p u
      = ⟨Except.error (ConvError.UnsupportedMime m GEMINI_MIME),
         1, 0, 0, 0, c⟩ :=
  convert_eq_unsupported w c p u n b fb m h1 h2 h3 h4 h5 h6

/-- Witness for C1: a path guessed as `audio/midi` - untouched by every
normalization step and outside the allow-list - fails with
`UnsupportedMime` and zero submits and polls. -/
theorem c1_witness :
    convert_file_to_part wMidi [] "song.mid" false
      = ⟨Except.error (ConvError.UnsupportedMime "audio/midi" GEMINI_MIME),
         1, 0, 0, 0, []⟩ :=
  c1_unsupported_type_no_network wMidi [] "song.mid" false 3 [77, 84, 104]
    [77, 84, 104] "audio/midi" rfl (by decide) rfl rfl (by decide)
    (by decide)

/-- Counterexample for C1 as stated: a path whose guessed content type is
`application/zip` does not fail with an unsupported-type error at all - the
MIME downgrade relabels it `text/plain` (which is allow-listed) and the
conversion succeeds with the zip bytes inlined unchanged. -/
theorem c1_counterexample :
    convert_file_to_part wZip [] "a.zip" false
      = ⟨Except.ok (FileResult.InlinePart ⟨"text/plain", "AQID"⟩),
         1, 0, 0, 0, []⟩ := by decide

/-- C2: a file of exactly 20 MiB with upload off never fails the size check;
a file one byte larger fails with `PayloadTooLarge` with zero file reads
(and no effects at all); and with upload on, no file of any size fails with
`PayloadTooLarge`. -/
theorem c2_size_boundary :
    (∀ w : World, ∀ c : Cache, ∀ p : String, ∀ m : Nat,
        w.statResult = Except.ok MAX_INLINE_SIZE →
        (convert_file_to_part w c p false).result
          ≠ Except.error (ConvError.PayloadTooLarge m))
  ∧ (∀ w : World, ∀ c : Cache, ∀ p : String,
        w.statResult = Except.ok (MAX_INLINE_SIZE + 1) →
        convert_file_to_part w c p false
          = ⟨Except.error (ConvError.PayloadTooLarge (MAX_INLINE_SIZE + 1)),
             0, 0, 0, 0, c⟩)
  ∧ (∀ w : World, ∀ c : Cache, ∀ p : String, ∀ n : Nat, ∀ m : Nat,
        w.statResult = Except.ok n →
        (convert_file_to_part w c p true).result
          ≠ Except.error (ConvError.PayloadTooLarge m)) := by
  refine ⟨?_, ?_, ?_⟩
  · intro w c p m h
    refine convert_no_payload w c p false ?_ m
    intro n hn hx
    rw [h] at hn
    injection hn with hn
    subst hn
    exact absurd hx.1 (lt_irrefl _)
  · intro w c p h
    exact convert_eq_tooLarge w c p false (MAX_INLINE_SIZE + 1) h
      ⟨Nat.lt_succ_self _, rfl⟩
  · intro w c p n m h
    refine convert_no_payload w c p true ?_ m
    intro n2 hn2 hx
    exact absurd hx.2 (by decide)

/-- Witness for C2 at the three boundary situations. -/
theorem c2_witness :
    ((convert_file_to_part wMax [] "f.txt" false).result
        ≠ Except.error (ConvError.PayloadTooLarge MAX_INLINE_SIZE))
  ∧ convert_file_to_part wOver [] "f.txt" false
      = ⟨Except.error (ConvError.PayloadTooLarge (MAX_INLINE_SIZE + 1)),
         0, 0, 0, 0, []⟩
  ∧ ((convert_file_to_part wOver [] "f.txt" true).result
        ≠ Except.error (ConvError.PayloadTooLarge (MAX_INLINE_SIZE + 1))) :=
  ⟨c2_size_boundary.1 wMax [] "f.txt" MAX_INLINE_SIZE rfl,
   c2_size_boundary.2.1 wOver [] "f.txt" rfl,
   c2_size_boundary.2.2 wOver [] "f.txt" (MAX_INLINE_SIZE + 1)
     (MAX_INLINE_SIZE + 1) rfl⟩

/-- C3: after a successful upload-mode conversion, a second upload-mode
conversion of the same path - while the cached entry is unexpired and the
lookup lock is acquired - performs zero submits, zero polls and zero file
reads, leaves the cache unchanged, and returns a handle wrapping the cached
reference. -/
theorem c3_upload_idempotent (v w : World) (c : Cache) (p : String)
    (f : File) (r : FileResult) (n : Nat)
    (_h1 : (convert_file_to_part v c p true).result = Except.ok r)
    (h2 : lookupCache (convert_file_to_part v c p true).cache p = some f)
    (h3 : expiredAt f w.now = false)
    (h4 : w.lockOkLookup = true)
    (h5 : w.statResult = Except.ok n) :
    convert_file_to_part w (convert_file_to_part v c p true).cache p true
      = ⟨Except.ok (FileResult.UploadedFile (FileHandle.fromModel f)),
         0, 0, 0, 0, (convert_file_to_part v c p true).cache⟩ := by
  have hstep : cacheLookupStep w (convert_file_to_part v c p true).cache p
      = some f := by
    unfold cacheLookupStep
    rw [h4, h2]
    simp [h3]
  exact convert_eq_cacheHit w (convert_file_to_part v c p true).cache p true
    n f h5 (by intro hx; exact absurd hx.2 (by decide))
    (by rw [cacheProbe_true]; exact hstep)

/-- Witness for C3: a successful upload of a plain-text file followed by a
second conversion of the same path. -/
theorem c3_witness :
    convert_file_to_part wUp (convert_file_to_part wUp [] "a.txt" true).cache
        "a.txt" true
      = ⟨Except.ok (FileResult.UploadedFile (FileHandle.fromModel fActive)),
         0, 0, 0, 0, (convert_file_to_part wUp [] "a.txt" true).cache⟩ :=
  c3_upload_idempotent wUp wUp [] "a.txt" fActive
    (FileResult.UploadedFile (FileHandle.fromUpload "files/u1")) 4
    (by decide) (by decide) (by decide) rfl rfl

/-- C4: an entry whose expiration timestamp lies strictly in the past is
treated as absent by the cache consultation, and the conversion falls
through to the file read (one read attempt is issued); an entry with no
expiration timestamp never expires: it is returned whenever the lock is
acquired. -/
theorem c4_cache_expiry :
    (∀ w : World, ∀ c : Cache, ∀ p : String, ∀ f : File, ∀ e : Int,
        lookupCache c p = some f → f.expiration_time = some e → e < w.now →
        cacheLookupStep w c p = none
        ∧ ∀ n : Nat, w.statResult = Except.ok n →
            (convert_file_to_part w c p true).fileReads = 1)
  ∧ (∀ w : World, ∀ c : Cache, ∀ p : String, ∀ f : File,
        w.lockOkLookup = true → lookupCache c p = some f →
        f.expiration_time = none → cacheLookupStep w c p = some f) := by
  constructor
  · intro w c p f e hl he hlt
    have hex : expiredAt f w.now = true := by
      unfold expiredAt
      rw [he]
      simpa using hlt
    have hstep : cacheLookupStep w c p = none := by
      unfold cacheLookupStep
      cases hk : w.lockOkLookup with
      | false => simp
      | true => simp [hl, hex]
    refine ⟨hstep, ?_⟩
    intro n hn
    rcases convert_shape w c p true with
        ⟨e2, hst, heq⟩ | ⟨n2, hst, hgt, hu, heq⟩ | ⟨n2, f2, hst, hcp, heq⟩ |
        ⟨n2, e2, hst, hcp, hrr, heq⟩ | ⟨n2, b, e2, hst, hcp, hrr, hn2, heq⟩ |
        ⟨n2, b, m2, fb, hst, hcp, hrr, hn2, hm, heq⟩ |
        ⟨hu, n2, b, m2, fb, hst, hrr, hn2, hm, heq⟩ |
        ⟨hu, n2, b, m2, fb, e2, hst, hcp, hrr, hn2, hm, hsb, heq⟩ |
        ⟨hu, n2, b, m2, fb, name, e2, po, sl, d, hst, hcp, hrr, hn2, hm,
          hsb, hpl, heq⟩ |
        ⟨hu, n2, b, m2, fb, name, po, sl, d, hst, hcp, hrr, hn2, hm, hsb,
          hpl, heq⟩
    · rw [hn] at hst; cases hst
    · exact absurd hu (by decide)
    · rw [cacheProbe_true, hstep] at hcp; cases hcp
    · rw [heq]
    · rw [heq]
    · rw [heq]
    · exact absurd hu (by decide)
    · rw [heq]
    · rw [heq]
    · rw [heq]
  · intro w c p f hk hl he
    have hex : expiredAt f w.now = false := by
      unfold expiredAt
      rw [he]
    unfold cacheLookupStep
    rw [hk, hl]
    simp [hex]

/-- Witness for C4: an entry expired at time 5 looked up at time 10, and the
same entry without expiration timestamp. -/
theorem c4_witness :
    (cacheLookupStep wLate [("a.txt", fExp)] "a.txt" = none
      ∧ (convert_file_to_part wLate [("a.txt", fExp)] "a.txt" true).fileReads
          = 1)
  ∧ cacheLookupStep wUp [("a.txt", fActive)] "a.txt" = some fActive :=
  ⟨⟨((c4_cache_expiry.1 wLate [("a.txt", fExp)] "a.txt" fExp 5 (by decide)
      rfl (by decide))).1,
    ((c4_cache_expiry.1 wLate [("a.txt", fExp)] "a.txt" fExp 5 (by decide)
      rfl (by decide))).2 4 rfl⟩,
   c4_cache_expiry.2 wUp [("a.txt", fActive)] "a.txt" fActive rfl (by decide)
     rfl⟩

/-- C5: a guessed `application/*` type other than `application/pdf`, or a
guessed `text/*` type other than `text/plain`, is normalized to declared
type `text/plain` with the body bytes passed through unmodified. -/
theorem c5_mime_downgrade (w : World) (b : List Nat)
    (h : (strStartsWith w.guessedMime "application" = true
            ∧ w.guessedMime ≠ "application/pdf")
       ∨ (strStartsWith w.guessedMime "text" = true
            ∧ w.guessedMime ≠ "text/plain")) :
    normalizeMedia w b = Except.ok ("text/plain", b) := by
  have hni : ¬ mimeTopLevel w.guessedMime = "image" := by
    rcases h with ⟨ha, _⟩ | ⟨ha, _⟩
    · exact ne_image_of_app ha
    · exact ne_image_of_text ha
  unfold normalizeMedia
  rw [if_neg hni, downgrade_eq_plain h]

/-- Witness for C5: a path guessed as `application/xml` is normalized to
`text/plain` with its two bytes unchanged. -/
theorem c5_witness :
    normalizeMedia wXml [60, 63] = Except.ok ("text/plain", [60, 63]) :=
  c5_mime_downgrade wXml [60, 63] (Or.inl ⟨by decide, by decide⟩)

/-- C6: an input guessed as an image whose detected container format is
neither PNG nor JPEG is decoded and re-encoded as PNG - the declared type
becomes `image/png`, which the validator accepts - and a decode or
re-encode failure aborts with the fatal `MediaDecodeError`. -/
theorem c6_image_reencode (w : World) (b : List Nat) (f : ImageFormat)
    (h1 : mimeTopLevel w.guessedMime = "image")
    (h2 : w.detectFormat b = some f)
    (h3 : ¬ f = ImageFormat.Png) (h4 : ¬ f = ImageFormat.Jpeg) :
    (∀ o : List Nat, w.reencodePng b = some o →
        normalizeMedia w b = Except.ok ("image/png", o)
        ∧ "image/png" ∈ GEMINI_MIME)
  ∧ (w.reencodePng b = none →
      normalizeMedia w b = Except.error ConvError.MediaDecodeError) := by
  constructor
  · intro o ho
    refine ⟨?_, by decide⟩
    unfold normalizeMedia
    rw [if_pos h1, h2]
    dsimp only
    rw [if_pos (by push_neg; exact ⟨h3, h4⟩), ho]
  · intro ho
    unfold normalizeMedia
    rw [if_pos h1, h2]
    dsimp only
    rw [if_pos (by push_neg; exact ⟨h3, h4⟩), ho]

/-- Witness for C6: a BMP image's bytes are re-encoded, the declared type
becomes `image/png`, and the validator accepts it. -/
theorem c6_witness :
    normalizeMedia wBmp [66, 77] = Except.ok ("image/png", [9, 9])
  ∧ "image/png" ∈ GEMINI_MIME :=
  (c6_image_reencode wBmp [66, 77] ImageFormat.Bmp (by decide) rfl
    (by decide) (by decide)).1 [9, 9] rfl

/-- C7 (amended): over metadata that never leaves `Processing`, the poll
loop terminates with `UploadTimeout` once the elapsed time (advanced only by
the fixed 2-second sleeps) exceeds the 300-second ceiling, issuing 152 polls
in total with 151 sleeps between them (a poll at each elapsed time 0, 2,
..., 300, and a final poll at elapsed 302 whose ceiling check fails); and
for every sequence of remote states the loop terminates within 152 polls. -/
theorem c7_poll_timeout (w : World) (p : String) (c : Cache)
    (h : ∀ j, ∃ f, w.poll j = Except.ok f
        ∧ f.state = some FileState.Processing) :
    pollLoop w p c = ⟨Except.error ConvError.UploadTimeout, 152, 151, c⟩
  ∧ ∀ v : World, ∀ q : String, ∀ d : Cache, (pollLoop v q d).polls ≤ 152 := by
  constructor
  · exact pollLoopGo_processing w p c h 152 0 (by omega) (by omega)
  · intro v q d
    exact pollLoopGo_polls_le v q d 152 0

/-- Witness for C7 (amended) at a concrete forever-`Processing` oracle. -/
theorem c7_witness :
    pollLoop wProc "p" []
      = ⟨Except.error ConvError.UploadTimeout, 152, 151, []⟩ :=
  (c7_poll_timeout wProc "p" [] (fun _ => ⟨fProc, rfl, rfl⟩)).1

set_option maxRecDepth 20000 in
/-- Counterexample for C7 as stated: the loop issues 152 polls before timing
out, not 150 (the first poll happens at elapsed time 0 and the timeout
check `elapsed > 300` is strict, so polls run at 0, 2, ..., 300 and once
more at 302). -/
theorem c7_counterexample :
    (pollLoop wProc "p" []).result = Except.error ConvError.UploadTimeout
  ∧ (pollLoop wProc "p" []).polls = 152
  ∧ ¬ (pollLoop wProc "p" []).polls = 150 := by decide

/-- C8: the cache entry for the path is written only upon observing state
`Active`: every error outcome leaves the cache unchanged, and any change to
the cache is exactly an insert, keyed by the path, of polled metadata whose
state is `Active`. -/
theorem c8_cache_write_only_on_active (w : World) (c : Cache) (p : String)
    (u : Bool) :
    (∀ e : ConvError, (convert_file_to_part w c p u).result = Except.error e →
        (convert_file_to_part w c p u).cache = c)
  ∧ ((convert_file_to_part w c p u).cache ≠ c →
      ∃ j : Nat, ∃ f : File, w.poll j = Except.ok f
        ∧ f.state = some FileState.Active
        ∧ (convert_file_to_part w c p u).cache = insertCache c p f) := by
  have master : (convert_file_to_part w c p u).cache = c
      ∨ ((∃ r, (convert_file_to_part w c p u).result = Except.ok r)
        ∧ ∃ j : Nat, ∃ f : File, w.poll j = Except.ok f
          ∧ f.state = some FileState.Active
          ∧ (convert_file_to_part w c p u).cache = insertCache c p f) := by
    rcases convert_shape w c p u with
        ⟨e, hst, heq⟩ | ⟨n, hst, hgt, hu, heq⟩ | ⟨n, f, hst, hcp, heq⟩ |
        ⟨n, e, hst, hcp, hrr, heq⟩ | ⟨n, b, e, hst, hcp, hrr, hn, heq⟩ |
        ⟨n, b, m2, fb, hst, hcp, hrr, hn, hm, heq⟩ |
        ⟨hu, n, b, m2, fb, hst, hrr, hn, hm, heq⟩ |
        ⟨hu, n, b, m2, fb, e, hst, hcp, hrr, hn, hm, hsb, heq⟩ |
        ⟨hu, n, b, m2, fb, name, e, po, sl, d, hst, hcp, hrr, hn, hm, hsb,
          hpl, heq⟩ |
        ⟨hu, n, b, m2, fb, name, po, sl, d, hst, hcp, hrr, hn, hm, hsb, hpl,
          heq⟩
    · left; rw [heq]
    · left; rw [heq]
    · left; rw [heq]
    · left; rw [heq]
    · left; rw [heq]
    · left; rw [heq]
    · left; rw [heq]
    · left; rw [heq]
    · rcases pollLoopGo_cache w p c 152 0 with hpc |
        ⟨hli, j, f, hpj, hsA, hcc, hrr2⟩
      · left
        rw [heq]
        have hres : pollLoopGo w p c 152 0
            = ⟨Except.error e, po, sl, d⟩ := hpl
        rw [hres] at hpc
        exact hpc
      · have hres : pollLoopGo w p c 152 0
            = ⟨Except.error e, po, sl, d⟩ := hpl
        rw [hres] at hrr2
        simp at hrr2
    · rcases pollLoopGo_cache w p c 152 0 with hpc |
        ⟨hli, j, f, hpj, hsA, hcc, hrr2⟩
      · left
        rw [heq]
        have hres : pollLoopGo w p c 152 0
            = ⟨Except.ok (), po, sl, d⟩ := hpl
        rw [hres] at hpc
        exact hpc
      · right
        have hres : pollLoopGo w p c 152 0
            = ⟨Except.ok (), po, sl, d⟩ := hpl
        rw [hres] at hcc
        refine ⟨⟨FileResult.UploadedFile (FileHandle.fromUpload name),
          by rw [heq]⟩, j, f, hpj, hsA, ?_⟩
        rw [heq]
        exact hcc
  constructor
  · intro e he
    rcases master with hc | ⟨⟨r, hr⟩, _⟩
    · exact hc
    · rw [he] at hr; cases hr
  · intro hne
    rcases master with hc | ⟨_, j, f, hpj, hsA, hcc⟩
    · exact absurd hc hne
    · exact ⟨j, f, hpj, hsA, hcc⟩

/-- Witness for C8: a failing stat leaves a pre-seeded cache untouched. -/
theorem c8_witness :
    (convert_file_to_part wStatErr [("q.txt", fActive)] "p.txt" false).cache
      = [("q.txt", fActive)] :=
  (c8_cache_write_only_on_active wStatErr [("q.txt", fActive)] "p.txt"
    false).1 (ConvError.IoError "stat failed") rfl

/-- C9: a failed cache-lock acquisition never causes a panic or an error of
its own: with the lookup lock unavailable the conversion has the same
result and effect counters as with an empty cache (it falls through to a
fresh upload), and with the insert lock unavailable the post-Active write
is silently skipped (cache unchanged) while the result equals the one with
the lock available. -/
theorem c9_lock_failure_resilience (w : World) (c : Cache) (p : String)
    (u : Bool) :
    (w.lockOkLookup = false →
        (convert_file_to_part w c p u).result
            = (convert_file_to_part w [] p u).result
        ∧ (convert_file_to_part w c p u).fileReads
            = (convert_file_to_part w [] p u).fileReads
        ∧ (convert_file_to_part w c p u).submits
            = (convert_file_to_part w [] p u).submits
        ∧ (convert_file_to_part w c p u).polls
            = (convert_file_to_part w [] p u).polls)
  ∧ (w.lockOkInsert = false →
      (convert_file_to_part w c p u).cache = c
      ∧ (convert_file_to_part w c p u).result
          = (convert_file_to_part { w with lockOkInsert := true }
              c p u).result) := by
  constructor
  · intro hl
    have hc : cacheProbe w c p u = cacheProbe w [] p u := by
      cases u
      · rfl
      · rw [cacheProbe_true, cacheProbe_true,
            cacheLookupStep_noLock w c p hl, cacheLookupStep_noLock w [] p hl]
    have hobs := convert_obs_eq w w c [] p u rfl rfl rfl rfl rfl rfl rfl hc
    exact ⟨hobs.1, hobs.2.1, hobs.2.2.1, hobs.2.2.2.1⟩
  · intro hi
    constructor
    · rcases convert_shape w c p u with
          ⟨e, hst, heq⟩ | ⟨n, hst, hgt, hu, heq⟩ | ⟨n, f, hst, hcp, heq⟩ |
          ⟨n, e, hst, hcp, hrr, heq⟩ | ⟨n, b, e, hst, hcp, hrr, hn, heq⟩ |
          ⟨n, b, m2, fb, hst, hcp, hrr, hn, hm, heq⟩ |
          ⟨hu, n, b, m2, fb, hst, hrr, hn, hm, heq⟩ |
          ⟨hu, n, b, m2, fb, e, hst, hcp, hrr, hn, hm, hsb, heq⟩ |
          ⟨hu, n, b, m2, fb, name, e, po, sl, d, hst, hcp, hrr, hn, hm, hsb,
            hpl, heq⟩ |
          ⟨hu, n, b, m2, fb, name, po, sl, d, hst, hcp, hrr, hn, hm, hsb,
            hpl, heq⟩
      · rw [heq]
      · rw [heq]
      · rw [heq]
      · rw [heq]
      · rw [heq]
      · rw [heq]
      · rw [heq]
      · rw [heq]
      · rw [heq]
        have hni := pollLoopGo_cache_of_noInsert w p c hi 152 0
        have hres : pollLoopGo w p c 152 0
            = ⟨Except.error e, po, sl, d⟩ := hpl
        rw [hres] at hni
        exact hni
      · rw [heq]
        have hni := pollLoopGo_cache_of_noInsert w p c hi 152 0
        have hres : pollLoopGo w p c 152 0
            = ⟨Except.ok (), po, sl, d⟩ := hpl
        rw [hres] at hni
        exact hni
    · exact (convert_obs_eq w { w with lockOkInsert := true } c c p u rfl
        rfl rfl rfl rfl rfl rfl rfl).1

/-- Witness for C9 at an oracle whose both lock acquisitions fail, with a
pre-seeded cache. -/
theorem c9_witness :
    ((convert_file_to_part wNoLock [("a.txt", fActive)] "a.txt" true).result
        = (convert_file_to_part wNoLock [] "a.txt" true).result
      ∧ (convert_file_to_part wNoLock [("a.txt", fActive)] "a.txt"
            true).fileReads
        = (convert_file_to_part wNoLock [] "a.txt" true).fileReads
      ∧ (convert_file_to_part wNoLock [("a.txt", fActive)] "a.txt"
            true).submits
        = (convert_file_to_part wNoLock [] "a.txt" true).submits
      ∧ (convert_file_to_part wNoLock [("a.txt", fActive)] "a.txt"
            true).polls
        = (convert_file_to_part wNoLock [] "a.txt" true).polls)
  ∧ ((convert_file_to_part wNoLock [("a.txt", fActive)] "a.txt" true).cache
        = [("a.txt", fActive)]
      ∧ (convert_file_to_part wNoLock [("a.txt", fActive)] "a.txt"
            true).result
        = (convert_file_to_part { wNoLock with lockOkInsert := true }
            [("a.txt", fActive)] "a.txt" true).result) :=
  ⟨(c9_lock_failure_resilience wNoLock [("a.txt", fActive)] "a.txt" true).1
     rfl,
   (c9_lock_failure_resilience wNoLock [("a.txt", fActive)] "a.txt" true).2
     rfl⟩

/-- C10: when the codec cannot identify the container format of an input
guessed as an image, no re-encoding happens - the bytes and the guessed
declared type pass through unchanged - and the conversion then fails with
the unsupported-type error exactly when the guessed type is outside the
allow-list, succeeding inline otherwise. -/
theorem c10_unknown_image_format_passthrough (w : World) (b : List Nat)
    (h1 : mimeTopLevel w.guessedMime = "image")
    (h2 : w.detectFormat b = none) :
    normalizeMedia w b = Except.ok (w.guessedMime, b)
  ∧ (∀ c : Cache, ∀ p : String, ∀ n : Nat,
      w.statResult = Except.ok n → ¬ n > MAX_INLINE_SIZE →
      w.readResult = Except.ok b →
      (w.guessedMime ∉ GEMINI_MIME →
        (convert_file_to_part w c p false).result
          = Except.error (ConvError.UnsupportedMime w.guessedMime
              GEMINI_MIME))
      ∧ (w.guessedMime ∈ GEMINI_MIME →
        (convert_file_to_part w c p false).result
          = Except.ok (FileResult.InlinePart
              ⟨w.guessedMime, base64Encode b⟩))) := by
  have hnorm : normalizeMedia w b = Except.ok (w.guessedMime, b) := by
    unfold normalizeMedia
    rw [if_pos h1, h2]
    dsimp only
    rw [downgrade_id_of_image h1]
  refine ⟨hnorm, ?_⟩
  intro c p n hst hsz hrd
  constructor
  · intro hm
    rw [convert_eq_unsupported w c p false n b b w.guessedMime hst
        (by intro hx; exact hsz hx.1) (cacheProbe_false w c p) hrd hnorm hm]
  · intro hm
    rw [convert_eq_inline w c p n b b w.guessedMime hst hsz hrd hnorm hm]

/-- Witness for C10: an SVG whose container the codec cannot identify passes
through and is then rejected as unsupported. -/
theorem c10_witness :
    normalizeMedia wSvg [4] = Except.ok ("image/svg+xml", [4])
  ∧ (convert_file_to_part wSvg [] "img.svg" false).result
      = Except.error (ConvError.UnsupportedMime "image/svg+xml"
          GEMINI_MIME) := by
  have h := c10_unknown_image_format_passthrough wSvg [4] (by decide) rfl
  exact ⟨h.1, (h.2 [] "img.svg" 1 rfl (by decide) rfl).1 (by decide)⟩

end GeminiD
